import Mathlib

/-!
Shallow embedding of `src/compute_sales.py`, a pandas pipeline that joins a
product price catalogue with a sales record and emits a cost report.

Modelling conventions:
* Python scalars are the sum type `Value`: Python `int` is `Value.int`,
  Python `float` is `Value.float` over ℚ (float rounding is out of scope for
  the verified claims; `nan` is the distinguished non-signalling float NaN),
  strings are `Value.str`, and Python `None` is `Value.null`.
* A pandas `DataFrame` is a column list plus a row list; a field missing from
  a row of an existing column reads as NaN, and accessing a column that does
  not exist raises `KeyError`, as in pandas.
* Fallible Python code is `Except PyError _`; an uncaught exception is an
  `Except.error`, which aborts the enclosing pipeline.
* `Series.apply`/`DataFrame.apply` evaluate row by row, stopping at the first
  raising row, which `exceptMap` mirrors.
-/

inductive PyError where
  | fileNotFound
  | jsonDecodeError
  | valueError
  | keyError
  | typeError
deriving Repr, DecidableEq

inductive Value where
  | int : Int → Value
  | float : Rat → Value
  | nan : Value
  | str : String → Value
  | null : Value
deriving Repr, DecidableEq

namespace Value

/-- Model of `pandas.isna`: true for float NaN and for Python `None`. -/
def isNa : Value → Bool
  | nan => true
  | null => true
  | _ => false

/-- Model of `isinstance(v, (int, float))`. NaN is a float, so it counts. -/
def isNum : Value → Bool
  | int _ => true
  | float _ => true
  | nan => true
  | _ => false

/-- A genuine number: an int or a (non-NaN) float. -/
def isRealNum : Value → Bool
  | int _ => true
  | float _ => true
  | _ => false

/-- The rational magnitude of an int or float value (0 otherwise). -/
def toRat : Value → Rat
  | int n => (n : Rat)
  | float q => q
  | _ => 0

/-- Python `==` on scalars: ints and floats compare numerically
(`1 == 1.0` is `True`), NaN is not equal to anything, including itself. -/
def pyEq : Value → Value → Bool
  | int m, int n => m == n
  | int m, float q => (m : Rat) == q
  | float q, int n => q == (n : Rat)
  | float a, float b => a == b
  | str a, str b => a == b
  | null, null => true
  | _, _ => false

/-- Python `s * n` for a string and an int: repetition, empty for `n ≤ 0`. -/
def strRepeat (s : String) : Nat → String
  | 0 => ""
  | n + 1 => s ++ strRepeat s n

/-- Python `*` on our scalar values.  `str * int` is sequence repetition;
`str * float`, `str * str` and anything involving `None` raise `TypeError`;
NaN propagates through numeric multiplication. -/
def pyMul : Value → Value → Except PyError Value
  | int m, int n => .ok (int (m * n))
  | int m, float q => .ok (float ((m : Rat) * q))
  | float q, int n => .ok (float (q * (n : Rat)))
  | float a, float b => .ok (float (a * b))
  | nan, int _ => .ok nan
  | nan, float _ => .ok nan
  | int _, nan => .ok nan
  | float _, nan => .ok nan
  | nan, nan => .ok nan
  | str s, int n => .ok (str (strRepeat s n.toNat))
  | int n, str s => .ok (str (strRepeat s n.toNat))
  | _, _ => .error .typeError

/-- Python `+` restricted to how the pipeline sums a column: numeric
addition with NaN propagation; adding a string to a number raises. -/
def pyAdd : Value → Value → Except PyError Value
  | int m, int n => .ok (int (m + n))
  | int m, float q => .ok (float ((m : Rat) + q))
  | float q, int n => .ok (float (q + (n : Rat)))
  | float a, float b => .ok (float (a + b))
  | nan, int _ => .ok nan
  | nan, float _ => .ok nan
  | int _, nan => .ok nan
  | float _, nan => .ok nan
  | nan, nan => .ok nan
  | str a, str b => .ok (str (a ++ b))
  | _, _ => .error .typeError

end Value

/-- A record: an ordered association of field names to scalar values. -/
abbrev Record : Type := List (String × Value)

/-- An in-memory table: named columns and an ordered list of records. -/
structure DataFrame where
  cols : List String
  rows : List Record
deriving Repr, DecidableEq

/-- The empty DataFrame (`pd.DataFrame()`): no columns, no rows. -/
def emptyDF : DataFrame := ⟨[], []⟩

/-- Reading field `c` of a row whose frame has column `c`: a missing entry
reads as NaN, as pandas fills absent fields of a known column with NaN. -/
def getItem (r : Record) (c : String) : Value :=
  match (List.lookup c (r : List (String × Value))) with
  | some v => v
  | none => .nan

/-- Model of `row[c]` inside an `apply` lambda: `KeyError` when `c` is not a column. -/
def rowGet (cols : List String) (r : Record) (c : String) : Except PyError Value :=
  if c ∈ cols then .ok (getItem r c) else .error .keyError

/-- Set field `c` of a record to `v`, replacing an existing entry in place
or appending a new one at the end (pandas column assignment per row). -/
def setField (r : Record) (c : String) (v : Value) : Record :=
  if (List.lookup c (r : List (String × Value))).isSome then
    List.map (fun p => if p.1 = c then (c, v) else p) (r : List (String × Value))
  else
    (r : List (String × Value)) ++ [(c, v)]

/-- Add column `c` to a column list if not already present. -/
def setCol (cols : List String) (c : String) : List String :=
  if c ∈ cols then cols else cols ++ [c]

/-- Lookup in a Python dict represented as an insertion-ordered association
list: a later binding of an equal key overwrites an earlier one, so the last
matching entry wins.  NaN keys never match (NaN compares unequal to NaN). -/
def dictGet (d : List (Value × Value)) (k : Value) : Option Value :=
  Option.map Prod.snd (List.getLast? (List.filter (fun p => Value.pyEq p.1 k) d))

/-- What the file system holds at a path, as `pd.read_json` sees it. -/
inductive ReadResult where
  | missing
  | badJson
  | badStructure
  | table : DataFrame → ReadResult

/-- A file system: what each path reads as. -/
def FS : Type := String → ReadResult

/-- Model of `pd.read_json(path)`: `FileNotFoundError` on a missing file, `ValueError`
(of which `json.JSONDecodeError` is a subclass) on malformed JSON or on a
structure that does not decode to a table. -/
def read_json (fs : FS) (p : String) : Except PyError DataFrame :=
  match fs p with
  | .missing => .error .fileNotFound
  | .badJson => .error .jsonDecodeError
  | .badStructure => .error .valueError
  | .table df => .ok df

/-- The diagnostic `load_json_to_dataframe` prints on a failed load. -/
def loadDiag (p : String) (e : PyError) : String :=
  "Error al cargar el archivo " ++ p ++ ": " ++ reprStr e

/-- Embedding of `load_json_to_dataframe`: try `pd.read_json`; on `FileNotFoundError`,
`ValueError` or `json.JSONDecodeError` print a diagnostic and return an
empty DataFrame; any other exception would propagate.  The returned list is
the diagnostics printed during the call. -/
def load_json_to_dataframe (fs : FS) (p : String) :
    Except PyError (DataFrame × List String) :=
  match read_json fs p with
  | .ok df => .ok (df, [])
  | .error e =>
    if e = .fileNotFound ∨ e = .valueError ∨ e = .jsonDecodeError then
      .ok (emptyDF, [loadDiag p e])
    else
      .error e

/-- Embedding of `map_product_prices`: `df.set_index("title")["price"].to_dict()`.
`set_index` raises `KeyError` when `"title"` is not a column (in particular
on the empty DataFrame, which has no columns); selecting `"price"` likewise.
The resulting dict maps each title value to the price of the last record
with that title (`to_dict` lets later duplicate keys overwrite earlier
ones), which `dictGet` over the full pair list reproduces. -/
def map_product_prices (df : DataFrame) : Except PyError (List (Value × Value)) :=
  if "title" ∈ df.cols then
    if "price" ∈ df.cols then
      .ok (List.map (fun r => (getItem r "title", getItem r "price")) df.rows)
    else .error .keyError
  else .error .keyError

example : map_product_prices emptyDF = .error .keyError := by rfl

example :
    (map_product_prices ⟨["title", "price"],
      [[("title", .str "A"), ("price", .int 10)],
       [("title", .str "A"), ("price", .int 12)]]⟩).map
      (fun d => dictGet d (.str "A")) = .ok (some (.int 12)) := by rfl

/-- Sequential fallible map, mirroring `DataFrame.apply(..., axis=1)`:
rows are visited in order and the first raising row aborts the call. -/
def exceptMap (f : α → Except PyError β) : List α → Except PyError (List β)
  | [] => .ok []
  | a :: as => do
    let b ← f a
    let bs ← exceptMap f as
    .ok (b :: bs)

/-- The sentinel `fillna` writes over a missing unit price. -/
def sentinel : String := "Producto no encontrado"

/-- Model of `Series.map(dict)` on one element followed by the in-place `fillna`:
a title not in the dict maps to NaN, and `fillna` then replaces any NA
value (including a NaN price stored in the dict) with the sentinel string. -/
def fillUnit : Option Value → Value
  | some v => if v.isNa then .str sentinel else v
  | none => .str sentinel

/-- One row of `df_sales["Unit_Price"] = df_sales["Product"].map(...)` plus
`fillna(sentinel, inplace=True)`: the caller's row gains a `Unit_Price`
field.  The `Product` column is known to exist when this runs. -/
def addUnit (prices : List (Value × Value)) (r : Record) : Record :=
  setField r "Unit_Price" (fillUnit (dictGet prices (getItem r "Product")))

/-- The `apply` lambda on one (already unit-priced) row:
`row["Quantity"] * row["Unit_Price"] if isinstance(row["Unit_Price"], (int, float)) else None`,
then `assign` stores the outcome in a `Total_Cost` field.  The guard is
evaluated first, so `Quantity` is only read when the unit price is numeric;
the multiplication can raise `TypeError` (e.g. `str * float`). -/
def computeTotal (cols : List String) (r : Record) : Except PyError Record := do
  let u ← rowGet cols r "Unit_Price"
  if u.isNum then
    let q ← rowGet cols r "Quantity"
    let t ← Value.pyMul q u
    .ok (setField r "Total_Cost" t)
  else
    .ok (setField r "Total_Cost" .null)

/-- Everything `process_sales_data` leaves behind: the state of the caller's
DataFrame object after the call (the function mutates it), and the two
returned frames. -/
structure ProcResult where
  callerState : DataFrame
  valid : DataFrame
  errors : DataFrame
deriving Repr, DecidableEq

/-- The rows produced by the `assign`/`apply` step, before partitioning. -/
def processedRows (df : DataFrame) (prices : List (Value × Value)) :
    Except PyError (List Record) :=
  exceptMap (computeTotal (setCol df.cols "Unit_Price"))
    (List.map (addUnit prices) df.rows)

/-- Embedding of `process_sales_data`:
1. `df_sales["Unit_Price"] = df_sales["Product"].map(product_prices)` —
   `KeyError` when `Product` is not a column (e.g. an empty sales frame);
   otherwise this mutates the caller's frame, adding the column.
2. `df_sales["Unit_Price"].fillna(sentinel, inplace=True)` — also in place.
3. `df_sales = df_sales.assign(Total_Cost=df_sales.apply(lambda ...))` —
   a fresh frame; the lambda can raise, aborting the call.
4. `errors` = rows whose `Total_Cost` is NA; `dropna` keeps the rest.
The caller's object retains all rows, with the `Unit_Price` column added. -/
def process_sales_data (df : DataFrame) (prices : List (Value × Value)) :
    Except PyError ProcResult :=
  if "Product" ∈ df.cols then
    match processedRows df prices with
    | .error e => .error e
    | .ok rows2 =>
      .ok ⟨⟨setCol df.cols "Unit_Price", List.map (addUnit prices) df.rows⟩,
           ⟨setCol (setCol df.cols "Unit_Price") "Total_Cost",
            List.filter (fun r => !(getItem r "Total_Cost").isNa) rows2⟩,
           ⟨setCol (setCol df.cols "Unit_Price") "Total_Cost",
            List.filter (fun r => (getItem r "Total_Cost").isNa) rows2⟩⟩
  else .error .keyError

/-- Round a rational to the nearest integer, ties to even (the rounding
`format(x, ".2f")` applies to the decimal digit string). -/
def roundHalfEven (q : Rat) : Int :=
  let f := ⌊q⌋
  let r := q - (f : Rat)
  if r < 1 / 2 then f
  else if 1 / 2 < r then f + 1
  else if f % 2 = 0 then f else f + 1

/-- Two-decimal fixed-point rendering of a nonnegative scaled integer. -/
def twoDecimalsOfNat (n : Nat) : String :=
  let whole := n / 100
  let frac := n % 100
  toString whole ++ "." ++ (if frac < 10 then "0" else "") ++ toString frac

/-- Python `format(x, ".2f")` on a (rational-modelled) number: round the
value times 100 half-to-even; a negative input keeps its sign even when it
rounds to zero (`-0.001` prints as `-0.00`). -/
def fmt2 (q : Rat) : String :=
  let n := (roundHalfEven (|q| * 100)).toNat
  (if q < 0 then "-" else "") ++ twoDecimalsOfNat n

/-- Formatting a scalar with `f"...:.2f"`: numbers format, NaN prints as
`nan`, and a non-numeric value raises. -/
def formatF2 : Value → Except PyError String
  | .int n => .ok (fmt2 (n : Rat))
  | .float q => .ok (fmt2 q)
  | .nan => .ok "nan"
  | _ => .error .typeError

/-- Model of `Series.sum()` over the `Total_Cost` column: NA entries are skipped
(`skipna` default), the empty sum is 0, and a string entry meeting the
numeric accumulator raises `TypeError`. -/
def seriesSum (vs : List Value) : Except PyError Value :=
  List.foldlM (fun acc v => if v.isNa then .ok acc else Value.pyAdd acc v)
    (Value.int 0) vs

/-- The body of the report f-string, around the two formatted numbers. -/
def reportText (total elapsed : String) : String :=
  "\n                Resultados de Ventas:\n                ---------------------\n                Total de Costos de Ventas: $" ++
    total ++ "\n                Tiempo de ejecución: " ++ elapsed ++
    " segundos\n                "

/-- Embedding of `generate_sales_report`: sum the `Total_Cost` column of the processed
frame and interpolate it, with the elapsed time, into the report string. -/
def generate_sales_report (df : DataFrame) (elapsed : Rat) :
    Except PyError String :=
  if "Total_Cost" ∈ df.cols then
    match seriesSum (List.map (fun r => getItem r "Total_Cost") df.rows) with
    | .error e => .error e
    | .ok total =>
      match formatF2 total with
      | .error e => .error e
      | .ok totalStr => .ok (reportText totalStr (fmt2 elapsed))
  else .error .keyError

/-- The data path of `main` after argument validation: load both files,
build the price index, process the sales, and render the report (file
writing and console printing are I/O glue outside this model; the elapsed
time is a parameter). -/
def runPipeline (fs : FS) (productPath salesPath : String) (elapsed : Rat) :
    Except PyError String := do
  let (dfProducts, _) ← load_json_to_dataframe fs productPath
  let (dfSales, _) ← load_json_to_dataframe fs salesPath
  let prices ← map_product_prices dfProducts
  let res ← process_sales_data dfSales prices
  generate_sales_report res.valid elapsed

example :
    runPipeline (fun _ => ReadResult.missing) "priceCatalogue.json"
      "salesRecord.json" 0 = .error .keyError := by rfl

/-! ### Structural lemmas about the embedding -/

theorem lookup_map_replace (c : String) (v : Value) :
    ∀ r : Record,
      List.lookup c (List.map (fun p => if p.1 = c then (c, v) else p) r) =
        if (List.lookup c r).isSome then some v else none
  | [] => by simp
  | (k, b) :: t => by
    simp only [List.map_cons]
    split
    case isTrue hk =>
      have hk' : k = c := hk
      have hck : (c == k) = true := by simp [hk']
      rw [List.lookup_cons_self, List.lookup_cons, hck]
      rfl
    case isFalse hk =>
      have hk' : ¬k = c := fun hkk => hk hkk
      have hck : (c == k) = false := by simp [Ne.symm hk']
      rw [List.lookup_cons, List.lookup_cons, hck]
      exact lookup_map_replace c v t

theorem lookup_map_replace_ne (c c' : String) (v : Value) (h : c' ≠ c) :
    ∀ r : Record,
      List.lookup c' (List.map (fun p => if p.1 = c then (c, v) else p) r) =
        List.lookup c' r
  | [] => by simp
  | (k, b) :: t => by
    simp only [List.map_cons]
    split
    case isTrue hk =>
      have hk' : k = c := hk
      have h1 : (c' == c) = false := by simp [h]
      have h2 : (c' == k) = false := by simp [hk', h]
      rw [List.lookup_cons, List.lookup_cons, h1, h2]
      exact lookup_map_replace_ne c c' v h t
    case isFalse hk =>
      rw [List.lookup_cons, List.lookup_cons]
      cases hq : c' == k with
      | true => rfl
      | false => exact lookup_map_replace_ne c c' v h t

theorem getItem_setField_self (r : Record) (c : String) (v : Value) :
    getItem (setField r c v) c = v := by
  unfold setField getItem
  by_cases h : (List.lookup c r).isSome
  · rw [if_pos h]
    have heq := lookup_map_replace c v r
    rw [if_pos h] at heq
    simp [heq]
  · rw [if_neg h]
    have hnone : List.lookup c r = none := Option.not_isSome_iff_eq_none.mp h
    simp [List.lookup_append, hnone, List.lookup_cons]

theorem getItem_setField_ne (r : Record) (c c' : String) (v : Value)
    (h : c' ≠ c) : getItem (setField r c v) c' = getItem r c' := by
  unfold setField getItem
  by_cases hs : (List.lookup c r).isSome
  · rw [if_pos hs, lookup_map_replace_ne c c' v h r]
  · rw [if_neg hs, List.lookup_append]
    have h1 : (c' == c) = false := by simp [h]
    cases hl : List.lookup c' r with
    | some w => simp
    | none => simp [List.lookup_cons, h1]

theorem exceptMap_cons (f : α → Except PyError β) (a : α) (as : List α) :
    exceptMap f (a :: as) =
      (f a).bind fun b => (exceptMap f as).bind fun bs => .ok (b :: bs) := rfl

theorem exceptMap_length (f : α → Except PyError β) :
    ∀ (l : List α) (l' : List β), exceptMap f l = .ok l' → l'.length = l.length
  | [], l', h => by
    simp only [exceptMap] at h
    cases h
    rfl
  | a :: as, l', h => by
    rw [exceptMap_cons] at h
    cases hfa : f a with
    | error e => rw [hfa] at h; simp [Except.bind] at h
    | ok b =>
      rw [hfa] at h
      cases hm : exceptMap f as with
      | error e => rw [hm] at h; simp [Except.bind] at h
      | ok bs =>
        rw [hm] at h
        simp only [Except.bind, Except.ok.injEq] at h
        subst h
        simp [exceptMap_length f as bs hm]

theorem exceptMap_get (f : α → Except PyError β) :
    ∀ (l : List α) (l' : List β), exceptMap f l = .ok l' →
      ∀ (i : Nat) (hi : i < l.length) (hi' : i < l'.length),
        f (l.get ⟨i, hi⟩) = .ok (l'.get ⟨i, hi'⟩)
  | [], l', h, i, hi, hi' => by simp at hi
  | a :: as, l', h, i, hi, hi' => by
    rw [exceptMap_cons] at h
    cases hfa : f a with
    | error e => rw [hfa] at h; simp [Except.bind] at h
    | ok b =>
      rw [hfa] at h
      cases hm : exceptMap f as with
      | error e => rw [hm] at h; simp [Except.bind] at h
      | ok bs =>
        rw [hm] at h
        simp only [Except.bind, Except.ok.injEq] at h
        subst h
        cases i with
        | zero => simpa using hfa
        | succ j =>
          have hj : j < as.length := by simpa using hi
          have hj' : j < bs.length := by simpa using hi'
          simpa using exceptMap_get f as bs hm j hj hj'

theorem length_filter_not_add (p : α → Bool) :
    ∀ l : List α,
      (List.filter (fun a => !p a) l).length + (List.filter p l).length = l.length
  | [] => rfl
  | a :: t => by
    have ih := length_filter_not_add p t
    cases hp : p a <;> simp [List.filter_cons, hp] <;> omega

theorem mem_setCol_self (cols : List String) (c : String) : c ∈ setCol cols c := by
  unfold setCol
  split
  · assumption
  · simp

theorem mem_setCol_of_mem {cols : List String} {c' : String} (c : String)
    (h : c' ∈ cols) : c' ∈ setCol cols c := by
  unfold setCol
  split
  · exact h
  · exact List.mem_append_left _ h

theorem rowGet_of_mem {cols : List String} {c : String} (r : Record)
    (h : c ∈ cols) : rowGet cols r c = .ok (getItem r c) := by
  simp [rowGet, h]

theorem isNa_of_isRealNum : ∀ {v : Value}, v.isRealNum = true → v.isNa = false
  | .int _, _ => rfl
  | .float _, _ => rfl
  | .nan, h => nomatch h
  | .str _, h => nomatch h
  | .null, h => nomatch h

theorem isNum_of_isRealNum : ∀ {v : Value}, v.isRealNum = true → v.isNum = true
  | .int _, _ => rfl
  | .float _, _ => rfl
  | .nan, h => nomatch h
  | .str _, h => nomatch h
  | .null, h => nomatch h

/-- Destructuring a successful `process_sales_data` call into its parts. -/
theorem process_sales_data_ok (df : DataFrame) (prices : List (Value × Value))
    (res : ProcResult) (h : process_sales_data df prices = .ok res) :
    "Product" ∈ df.cols ∧
    ∃ rows2 : List Record,
      processedRows df prices = .ok rows2 ∧
      res = ⟨⟨setCol df.cols "Unit_Price", List.map (addUnit prices) df.rows⟩,
             ⟨setCol (setCol df.cols "Unit_Price") "Total_Cost",
              List.filter (fun r => !(getItem r "Total_Cost").isNa) rows2⟩,
             ⟨setCol (setCol df.cols "Unit_Price") "Total_Cost",
              List.filter (fun r => (getItem r "Total_Cost").isNa) rows2⟩⟩ := by
  unfold process_sales_data at h
  split at h
  case isTrue hp =>
    cases hm : processedRows df prices with
    | error e => rw [hm] at h; cases h
    | ok rows2 =>
      rw [hm] at h
      exact ⟨hp, rows2, rfl, (Except.ok.inj h).symm⟩
  case isFalse hp => cases h

/-- The `i`-th processed row is the `apply` lambda's output on the `i`-th
unit-priced input row. -/
theorem processedRows_get (df : DataFrame) (prices : List (Value × Value))
    (rows2 : List Record) (hm : processedRows df prices = .ok rows2)
    (i : Nat) (hi : i < df.rows.length) :
    ∃ hi' : i < rows2.length,
      computeTotal (setCol df.cols "Unit_Price")
        (addUnit prices (df.rows.get ⟨i, hi⟩)) = .ok (rows2.get ⟨i, hi'⟩) := by
  have hm' : exceptMap (computeTotal (setCol df.cols "Unit_Price"))
      (List.map (addUnit prices) df.rows) = .ok rows2 := hm
  have hlen : rows2.length = (List.map (addUnit prices) df.rows).length :=
    exceptMap_length _ _ _ hm'
  have hi' : i < rows2.length := by simpa [hlen] using hi
  refine ⟨hi', ?_⟩
  have hmap : i < (List.map (addUnit prices) df.rows).length := by simpa using hi
  have hget := exceptMap_get _ _ _ hm' i hmap hi'
  rw [List.get_map] at hget
  exact hget

/-- The lambda on a row whose (already filled) unit price is not numeric:
`Total_Cost` is set to `None` without reading `Quantity`. -/
theorem computeTotal_not_num (cols : List String) (r : Record)
    (hU : "Unit_Price" ∈ cols) (hu : (getItem r "Unit_Price").isNum = false) :
    computeTotal cols r = .ok (setField r "Total_Cost" .null) := by
  unfold computeTotal
  rw [rowGet_of_mem r hU]
  show (if (getItem r "Unit_Price").isNum then _ else _ : Except PyError Record) = _
  rw [hu]
  rfl

/-- The lambda on a row whose unit price is numeric: `Total_Cost` is the
Python product of `Quantity` and `Unit_Price`, when that product exists. -/
theorem computeTotal_num (cols : List String) (r : Record)
    (hU : "Unit_Price" ∈ cols) (hQ : "Quantity" ∈ cols)
    (hu : (getItem r "Unit_Price").isNum = true) (t : Value)
    (hmul : Value.pyMul (getItem r "Quantity") (getItem r "Unit_Price") = .ok t) :
    computeTotal cols r = .ok (setField r "Total_Cost" t) := by
  unfold computeTotal
  rw [rowGet_of_mem r hU]
  show (if (getItem r "Unit_Price").isNum then _ else _ : Except PyError Record) = _
  rw [hu]
  show (rowGet cols r "Quantity").bind _ = _
  rw [rowGet_of_mem r hQ]
  show (Value.pyMul (getItem r "Quantity") (getItem r "Unit_Price")).bind _ = _
  rw [hmul]
  rfl

/-! ### Claim theorems -/

/-- C1: the claim that a run in which both input files fail to load still
produces a $0.00 report is false on the code.  The loader does degrade both
failures to empty tables, but `map_product_prices` then evaluates
`set_index("title")` on the empty products table, which has no columns, so
the pipeline aborts with an uncaught `KeyError` instead of reporting
$0.00. -/
theorem c1_pipeline_aborts_when_both_loads_fail :
    runPipeline (fun _ => ReadResult.missing) "priceCatalogue.json"
      "salesRecord.json" 0 = .error .keyError := by rfl

/-- Sales table whose single row has a string `Quantity`, for claim C2. -/
def salesStrQty : DataFrame :=
  ⟨["Product", "Quantity"],
   [[("Product", .str "Pen"), ("Quantity", .str "abc")]]⟩

/-- Price index resolving that product to a float price, for claim C2. -/
def pricesFloat : List (Value × Value) := [(.str "Pen", .float (5 / 2))]

/-- C2: the claim that a row with a non-numeric `Quantity` is diverted to
the error partition without a fatal error is false on the code.  The unit
price is numeric, so the `apply` lambda computes `"abc" * 2.5`; multiplying
a string by a float raises `TypeError`, which escapes `process_sales_data`
and kills the run. -/
theorem c2_string_quantity_raises_fatal_typeerror :
    process_sales_data salesStrQty pricesFloat = .error .typeError := by rfl

/-- C3: whenever the sales processor returns, its two partitions are the
complementary NA / non-NA filters of one processed row list that has exactly
one row per input sales row: sizes add up to the input size, no processed
row is in both partitions, and every processed row is in one of them. -/
theorem c3_partitions_are_exact (df : DataFrame) (prices : List (Value × Value))
    (res : ProcResult) (h : process_sales_data df prices = .ok res) :
    res.valid.rows.length + res.errors.rows.length = df.rows.length ∧
    (∀ r : Record, r ∈ res.valid.rows → r ∉ res.errors.rows) ∧
    ∃ rows2 : List Record, processedRows df prices = .ok rows2 ∧
      rows2.length = df.rows.length ∧
      ∀ r : Record, r ∈ rows2 ↔ (r ∈ res.valid.rows ∨ r ∈ res.errors.rows) := by
  obtain ⟨hp, rows2, hm, hres⟩ := process_sales_data_ok df prices res h
  subst hres
  have hm' : exceptMap (computeTotal (setCol df.cols "Unit_Price"))
      (List.map (addUnit prices) df.rows) = .ok rows2 := hm
  have hlen : rows2.length = df.rows.length := by
    have h1 := exceptMap_length _ _ _ hm'
    simpa using h1
  refine ⟨?_, ?_, rows2, hm, hlen, ?_⟩
  · have h2 := length_filter_not_add
      (fun r : Record => (getItem r "Total_Cost").isNa) rows2
    simpa [hlen] using h2
  · intro r hv he
    have h3 := (List.mem_filter.mp hv).2
    have h4 := (List.mem_filter.mp he).2
    rw [h4] at h3
    cases h3
  · intro r
    constructor
    · intro hr
      by_cases hna : (getItem r "Total_Cost").isNa
      · exact Or.inr (List.mem_filter.mpr ⟨hr, hna⟩)
      · exact Or.inl (List.mem_filter.mpr ⟨hr, by simp [hna]⟩)
    · rintro (hr | hr) <;> exact (List.mem_filter.mp hr).1

/-- Two-row sales table: one known product, one unknown product. -/
def exSales : DataFrame :=
  ⟨["Product", "Quantity"],
   [[("Product", .str "Pen"), ("Quantity", .int 2)],
    [("Product", .str "Ghost"), ("Quantity", .int 1)]]⟩

/-- Price index knowing only the first product, with an integer price. -/
def exPrices : List (Value × Value) := [(.str "Pen", .int 10)]

/-- The processor's full output on `exSales` / `exPrices`, written out. -/
def exRes : ProcResult :=
  ⟨⟨["Product", "Quantity", "Unit_Price"],
    [[("Product", .str "Pen"), ("Quantity", .int 2), ("Unit_Price", .int 10)],
     [("Product", .str "Ghost"), ("Quantity", .int 1),
      ("Unit_Price", .str "Producto no encontrado")]]⟩,
   ⟨["Product", "Quantity", "Unit_Price", "Total_Cost"],
    [[("Product", .str "Pen"), ("Quantity", .int 2), ("Unit_Price", .int 10),
      ("Total_Cost", .int 20)]]⟩,
   ⟨["Product", "Quantity", "Unit_Price", "Total_Cost"],
    [[("Product", .str "Ghost"), ("Quantity", .int 1),
      ("Unit_Price", .str "Producto no encontrado"), ("Total_Cost", .null)]]⟩⟩

/-- Witness for C3 at a concrete two-row table: one valid row plus one error
row cover the two input rows. -/
theorem c3_witness :
    exRes.valid.rows.length + exRes.errors.rows.length = exSales.rows.length ∧
    (∀ r : Record, r ∈ exRes.valid.rows → r ∉ exRes.errors.rows) ∧
    ∃ rows2 : List Record, processedRows exSales exPrices = .ok rows2 ∧
      rows2.length = exSales.rows.length ∧
      ∀ r : Record, r ∈ rows2 ↔ (r ∈ exRes.valid.rows ∨ r ∈ exRes.errors.rows) :=
  c3_partitions_are_exact exSales exPrices exRes (by rfl)

/-- C9 counterexample: at a concrete table the caller's frame object after
`process_sales_data` differs from the frame that was passed in — the call
wrote a `Unit_Price` column into its argument — refuting the claim that the
caller's input sales table is left unchanged. -/
theorem c9_cex_processor_mutates_its_argument :
    Option.map ProcResult.callerState
      (process_sales_data exSales exPrices).toOption ≠ some exSales := by decide

/-- C9 amended: the processor is not a pure transform: it mutates the
caller's sales frame in place, adding the sentinel-filled `Unit_Price`
column.  That is the whole extent of the mutation — the caller keeps exactly
one row per input row, with every field other than `Unit_Price` unchanged —
and the returned partitions are fresh frames. -/
theorem c9_amended_mutation_confined_to_unit_price (df : DataFrame)
    (prices : List (Value × Value)) (res : ProcResult)
    (h : process_sales_data df prices = .ok res) :
    res.callerState.rows.length = df.rows.length ∧
    ∀ (i : Nat) (hi : i < df.rows.length)
      (hi' : i < res.callerState.rows.length) (c : String),
      c ≠ "Unit_Price" →
      getItem (res.callerState.rows.get ⟨i, hi'⟩) c =
        getItem (df.rows.get ⟨i, hi⟩) c := by
  obtain ⟨hp, rows2, hm, hres⟩ := process_sales_data_ok df prices res h
  subst hres
  refine ⟨by simp, ?_⟩
  intro i hi hi' c hc
  show getItem ((List.map (addUnit prices) df.rows).get ⟨i, hi'⟩) c = _
  rw [List.get_map]
  unfold addUnit
  exact getItem_setField_ne _ _ _ _ hc

/-- Witness for the amended C9 at the concrete two-row table. -/
theorem c9_amended_witness :
    exRes.callerState.rows.length = exSales.rows.length ∧
    ∀ (i : Nat) (hi : i < exSales.rows.length)
      (hi' : i < exRes.callerState.rows.length) (c : String),
      c ≠ "Unit_Price" →
      getItem (exRes.callerState.rows.get ⟨i, hi'⟩) c =
        getItem (exSales.rows.get ⟨i, hi⟩) c :=
  c9_amended_mutation_confined_to_unit_price exSales exPrices exRes (by rfl)

/-- C4: a sale row whose Product is not a key of the price index gets the
sentinel string as `Unit_Price`, so the lambda sets its `Total_Cost` to
`None` without ever reading `Quantity`: the row lands in the error partition
and not in the valid one, for every `Quantity` value (including 0). -/
theorem c4_unknown_product_lands_in_errors (df : DataFrame)
    (prices : List (Value × Value)) (res : ProcResult) (i : Nat)
    (hi : i < df.rows.length)
    (hnf : dictGet prices (getItem (df.rows.get ⟨i, hi⟩) "Product") = none)
    (h : process_sales_data df prices = .ok res) :
    ∃ r' : Record,
      computeTotal (setCol df.cols "Unit_Price")
        (addUnit prices (df.rows.get ⟨i, hi⟩)) = .ok r' ∧
      getItem r' "Total_Cost" = Value.null ∧
      r' ∈ res.errors.rows ∧ r' ∉ res.valid.rows := by
  obtain ⟨hp, rows2, hm, hres⟩ := process_sales_data_ok df prices res h
  subst hres
  obtain ⟨hi', hct⟩ := processedRows_get df prices rows2 hm i hi
  have hunit : getItem (addUnit prices (df.rows.get ⟨i, hi⟩)) "Unit_Price" =
      .str sentinel := by
    unfold addUnit
    rw [hnf]
    exact getItem_setField_self _ _ _
  have hnum : (getItem (addUnit prices (df.rows.get ⟨i, hi⟩)) "Unit_Price").isNum =
      false := by
    rw [hunit]; rfl
  have hcomp := computeTotal_not_num (setCol df.cols "Unit_Price")
    (addUnit prices (df.rows.get ⟨i, hi⟩)) (mem_setCol_self _ _) hnum
  have hrow : rows2.get ⟨i, hi'⟩ =
      setField (addUnit prices (df.rows.get ⟨i, hi⟩)) "Total_Cost" .null :=
    Except.ok.inj (hct.symm.trans hcomp)
  refine ⟨rows2.get ⟨i, hi'⟩, hct, ?_, ?_, ?_⟩
  · rw [hrow]; exact getItem_setField_self _ _ _
  · apply List.mem_filter.mpr
    refine ⟨List.get_mem rows2 i hi', ?_⟩
    rw [hrow, getItem_setField_self]
    rfl
  · intro hmem
    have hbad := (List.mem_filter.mp hmem).2
    rw [hrow, getItem_setField_self] at hbad
    cases hbad

/-- Witness for C4: the second row of the two-row table references an
unknown product and lands in the error partition. -/
theorem c4_witness :
    ∃ r' : Record,
      computeTotal (setCol exSales.cols "Unit_Price")
        (addUnit exPrices (exSales.rows.get ⟨1, by decide⟩)) = .ok r' ∧
      getItem r' "Total_Cost" = Value.null ∧
      r' ∈ exRes.errors.rows ∧ r' ∉ exRes.valid.rows :=
  c4_unknown_product_lands_in_errors exSales exPrices exRes 1 (by decide)
    (by rfl) (by rfl)

/-- The Python product of zero with a genuine number is a zero number. -/
theorem pyMul_zero_realNum : ∀ {u : Value}, u.isRealNum = true →
    ∃ t : Value, Value.pyMul (Value.int 0) u = .ok t ∧
      t.isRealNum = true ∧ t.toRat = 0
  | .int a, _ => ⟨.int (0 * a), rfl, rfl, by simp [Value.toRat]⟩
  | .float x, _ => ⟨.float (((0 : Int) : Rat) * x), rfl, rfl, by
      simp [Value.toRat]⟩
  | .nan, h => nomatch h
  | .str _, h => nomatch h
  | .null, h => nomatch h

/-- NaN times a genuine number is NaN. -/
theorem pyMul_nan_realNum : ∀ {u : Value}, u.isRealNum = true →
    Value.pyMul Value.nan u = .ok Value.nan
  | .int _, _ => rfl
  | .float _, _ => rfl
  | .nan, h => nomatch h
  | .str _, h => nomatch h
  | .null, h => nomatch h

/-- C7: a sale row whose Product resolves to a genuine numeric price and
whose Quantity is 0 gets `Total_Cost` equal to the number 0 and lands in
the valid partition, not the error partition. -/
theorem c7_zero_quantity_known_product_is_valid (df : DataFrame)
    (prices : List (Value × Value)) (res : ProcResult) (i : Nat)
    (hi : i < df.rows.length) (hQ : "Quantity" ∈ df.cols)
    (hqty : getItem (df.rows.get ⟨i, hi⟩) "Quantity" = Value.int 0)
    (u : Value)
    (hu : dictGet prices (getItem (df.rows.get ⟨i, hi⟩) "Product") = some u)
    (hnum : u.isRealNum = true)
    (h : process_sales_data df prices = .ok res) :
    ∃ r' : Record,
      computeTotal (setCol df.cols "Unit_Price")
        (addUnit prices (df.rows.get ⟨i, hi⟩)) = .ok r' ∧
      (getItem r' "Total_Cost").isRealNum = true ∧
      (getItem r' "Total_Cost").toRat = 0 ∧
      r' ∈ res.valid.rows ∧ r' ∉ res.errors.rows := by
  obtain ⟨hp, rows2, hm, hres⟩ := process_sales_data_ok df prices res h
  subst hres
  obtain ⟨hi', hct⟩ := processedRows_get df prices rows2 hm i hi
  have hfill : fillUnit (some u) = u := by
    show (if u.isNa = true then Value.str sentinel else u) = u
    rw [isNa_of_isRealNum hnum]
    rfl
  have hunit : getItem (addUnit prices (df.rows.get ⟨i, hi⟩)) "Unit_Price" = u := by
    unfold addUnit
    rw [hu, hfill]
    exact getItem_setField_self _ _ _
  have hq' : getItem (addUnit prices (df.rows.get ⟨i, hi⟩)) "Quantity" =
      Value.int 0 := by
    unfold addUnit
    rw [getItem_setField_ne _ _ _ _ (by decide)]
    exact hqty
  obtain ⟨t, hmul, htr, htt⟩ := pyMul_zero_realNum hnum
  have hcomp := computeTotal_num (setCol df.cols "Unit_Price")
    (addUnit prices (df.rows.get ⟨i, hi⟩)) (mem_setCol_self _ _)
    (mem_setCol_of_mem _ hQ)
    (by rw [hunit]; exact isNum_of_isRealNum hnum) t
    (by rw [hq', hunit]; exact hmul)
  have hrow : rows2.get ⟨i, hi'⟩ =
      setField (addUnit prices (df.rows.get ⟨i, hi⟩)) "Total_Cost" t :=
    Except.ok.inj (hct.symm.trans hcomp)
  refine ⟨rows2.get ⟨i, hi'⟩, hct, ?_, ?_, ?_, ?_⟩
  · rw [hrow, getItem_setField_self]; exact htr
  · rw [hrow, getItem_setField_self]; exact htt
  · apply List.mem_filter.mpr
    refine ⟨List.get_mem rows2 i hi', ?_⟩
    rw [hrow, getItem_setField_self, isNa_of_isRealNum htr]
    rfl
  · intro hmem
    have hbad := (List.mem_filter.mp hmem).2
    rw [hrow, getItem_setField_self, isNa_of_isRealNum htr] at hbad
    cases hbad

/-- One-row sales table with a known product and Quantity 0, for C7. -/
def zeroSales : DataFrame :=
  ⟨["Product", "Quantity"],
   [[("Product", .str "Pen"), ("Quantity", .int 0)]]⟩

/-- The processor's output on `zeroSales` / `exPrices`, written out. -/
def zeroRes : ProcResult :=
  ⟨⟨["Product", "Quantity", "Unit_Price"],
    [[("Product", .str "Pen"), ("Quantity", .int 0), ("Unit_Price", .int 10)]]⟩,
   ⟨["Product", "Quantity", "Unit_Price", "Total_Cost"],
    [[("Product", .str "Pen"), ("Quantity", .int 0), ("Unit_Price", .int 10),
      ("Total_Cost", .int 0)]]⟩,
   ⟨["Product", "Quantity", "Unit_Price", "Total_Cost"], []⟩⟩

/-- Witness for C7: quantity 0 of a known product stays valid with a zero
total. -/
theorem c7_witness :
    ∃ r' : Record,
      computeTotal (setCol zeroSales.cols "Unit_Price")
        (addUnit exPrices (zeroSales.rows.get ⟨0, by decide⟩)) = .ok r' ∧
      (getItem r' "Total_Cost").isRealNum = true ∧
      (getItem r' "Total_Cost").toRat = 0 ∧
      r' ∈ zeroRes.valid.rows ∧ r' ∉ zeroRes.errors.rows :=
  c7_zero_quantity_known_product_is_valid zeroSales exPrices zeroRes 0
    (by decide) (by decide) (by rfl) (.int 10) (by rfl) (by rfl) (by rfl)

/-- C10: a sale row whose Product resolves to a genuine numeric price but
whose Quantity is missing (NaN) gets `Total_Cost` NaN — the lambda returns
normally, no exception — so the row lands in the error partition and not in
the valid one, contributing nothing to the total. -/
theorem c10_nan_quantity_lands_in_errors (df : DataFrame)
    (prices : List (Value × Value)) (res : ProcResult) (i : Nat)
    (hi : i < df.rows.length) (hQ : "Quantity" ∈ df.cols)
    (hqty : getItem (df.rows.get ⟨i, hi⟩) "Quantity" = Value.nan)
    (u : Value)
    (hu : dictGet prices (getItem (df.rows.get ⟨i, hi⟩) "Product") = some u)
    (hnum : u.isRealNum = true)
    (h : process_sales_data df prices = .ok res) :
    ∃ r' : Record,
      computeTotal (setCol df.cols "Unit_Price")
        (addUnit prices (df.rows.get ⟨i, hi⟩)) = .ok r' ∧
      getItem r' "Total_Cost" = Value.nan ∧
      r' ∈ res.errors.rows ∧ r' ∉ res.valid.rows := by
  obtain ⟨hp, rows2, hm, hres⟩ := process_sales_data_ok df prices res h
  subst hres
  obtain ⟨hi', hct⟩ := processedRows_get df prices rows2 hm i hi
  have hfill : fillUnit (some u) = u := by
    show (if u.isNa = true then Value.str sentinel else u) = u
    rw [isNa_of_isRealNum hnum]
    rfl
  have hunit : getItem (addUnit prices (df.rows.get ⟨i, hi⟩)) "Unit_Price" = u := by
    unfold addUnit
    rw [hu, hfill]
    exact getItem_setField_self _ _ _
  have hq' : getItem (addUnit prices (df.rows.get ⟨i, hi⟩)) "Quantity" =
      Value.nan := by
    unfold addUnit
    rw [getItem_setField_ne _ _ _ _ (by decide)]
    exact hqty
  have hcomp := computeTotal_num (setCol df.cols "Unit_Price")
    (addUnit prices (df.rows.get ⟨i, hi⟩)) (mem_setCol_self _ _)
    (mem_setCol_of_mem _ hQ)
    (by rw [hunit]; exact isNum_of_isRealNum hnum) Value.nan
    (by rw [hq', hunit]; exact pyMul_nan_realNum hnum)
  have hrow : rows2.get ⟨i, hi'⟩ =
      setField (addUnit prices (df.rows.get ⟨i, hi⟩)) "Total_Cost" Value.nan :=
    Except.ok.inj (hct.symm.trans hcomp)
  refine ⟨rows2.get ⟨i, hi'⟩, hct, ?_, ?_, ?_⟩
  · rw [hrow]; exact getItem_setField_self _ _ _
  · apply List.mem_filter.mpr
    refine ⟨List.get_mem rows2 i hi', ?_⟩
    rw [hrow, getItem_setField_self]
    rfl
  · intro hmem
    have hbad := (List.mem_filter.mp hmem).2
    rw [hrow, getItem_setField_self] at hbad
    cases hbad

/-- One-row sales table with a known product and a NaN Quantity, for C10. -/
def nanSales : DataFrame :=
  ⟨["Product", "Quantity"],
   [[("Product", .str "Pen"), ("Quantity", .nan)]]⟩

/-- The processor's output on `nanSales` / `exPrices`, written out. -/
def nanRes : ProcResult :=
  ⟨⟨["Product", "Quantity", "Unit_Price"],
    [[("Product", .str "Pen"), ("Quantity", .nan), ("Unit_Price", .int 10)]]⟩,
   ⟨["Product", "Quantity", "Unit_Price", "Total_Cost"], []⟩,
   ⟨["Product", "Quantity", "Unit_Price", "Total_Cost"],
    [[("Product", .str "Pen"), ("Quantity", .nan), ("Unit_Price", .int 10),
      ("Total_Cost", .nan)]]⟩⟩

/-- Witness for C10: a NaN quantity of a known product goes to the error
partition without an exception. -/
theorem c10_witness :
    ∃ r' : Record,
      computeTotal (setCol nanSales.cols "Unit_Price")
        (addUnit exPrices (nanSales.rows.get ⟨0, by decide⟩)) = .ok r' ∧
      getItem r' "Total_Cost" = Value.nan ∧
      r' ∈ nanRes.errors.rows ∧ r' ∉ nanRes.valid.rows :=
  c10_nan_quantity_lands_in_errors nanSales exPrices nanRes 0
    (by decide) (by decide) (by rfl) (.int 10) (by rfl) (by rfl) (by rfl)

/-- C5: the price index built by `map_product_prices` maps a title to the
price of the last record in catalogue order bearing that title, so when the
catalogue holds duplicate titles the last occurrence wins. -/
theorem c5_price_index_last_occurrence_wins (df : DataFrame)
    (d : List (Value × Value)) (h : map_product_prices df = .ok d) (t : String) :
    dictGet d (.str t) =
      Option.map (fun r => getItem r "price")
        (List.getLast? (List.filter
          (fun r => Value.pyEq (getItem r "title") (.str t)) df.rows)) := by
  unfold map_product_prices at h
  split at h
  case isTrue h1 =>
    split at h
    case isTrue h2 =>
      have hd := Except.ok.inj h
      subst hd
      unfold dictGet
      rw [List.filter_map, List.getLast?_map, Option.map_map]
      rfl
    case isFalse h2 => cases h
  case isFalse h1 => cases h

/-- Catalogue with a duplicated title, prices 10 then 12. -/
def dupCatalogue : DataFrame :=
  ⟨["title", "price"],
   [[("title", .str "A"), ("price", .int 10)],
    [("title", .str "A"), ("price", .int 12)]]⟩

/-- The pair list `map_product_prices` builds from `dupCatalogue`. -/
def dupIndex : List (Value × Value) :=
  [(.str "A", .int 10), (.str "A", .int 12)]

/-- Witness for C5: the duplicated title A resolves to 12, the price of the
last record, matching the last-occurrence characterisation. -/
theorem c5_witness :
    map_product_prices dupCatalogue = .ok dupIndex ∧
    dictGet dupIndex (.str "A") = some (.int 12) ∧
    dictGet dupIndex (.str "A") =
      Option.map (fun r => getItem r "price")
        (List.getLast? (List.filter
          (fun r => Value.pyEq (getItem r "title") (.str "A"))
          dupCatalogue.rows)) :=
  ⟨by rfl, by rfl,
   c5_price_index_last_occurrence_wins dupCatalogue dupIndex (by rfl) "A"⟩

/-- C6: each failing load — missing file, malformed JSON, or a structural
decode error — makes the loader print one diagnostic naming the path and
return the empty table as a normal result: no such failure terminates the
process from this layer. -/
theorem c6_loader_returns_empty_on_failure (fs : FS) (p : String)
    (h : fs p = .missing ∨ fs p = .badJson ∨ fs p = .badStructure) :
    ∃ e : PyError,
      load_json_to_dataframe fs p = .ok (emptyDF, [loadDiag p e]) := by
  unfold load_json_to_dataframe read_json
  rcases h with h | h | h <;> rw [h] <;> exact ⟨_, rfl⟩

/-- A file system on which every path is missing. -/
def missingFS : FS := fun _ => .missing

/-- Witness for C6 at a concrete missing file. -/
theorem c6_witness :
    (missingFS "salesRecord.json" = .missing ∨
     missingFS "salesRecord.json" = .badJson ∨
     missingFS "salesRecord.json" = .badStructure) ∧
    ∃ e : PyError,
      load_json_to_dataframe missingFS "salesRecord.json" =
        .ok (emptyDF, [loadDiag "salesRecord.json" e]) :=
  ⟨Or.inl rfl,
   c6_loader_returns_empty_on_failure missingFS "salesRecord.json" (Or.inl rfl)⟩

/-- The mathematical sum of the numeric magnitudes of a value list. -/
def mathSum (vs : List Value) : Rat := (List.map Value.toRat vs).sum

theorem pyAdd_realNum : ∀ {a b : Value}, a.isRealNum = true →
    b.isRealNum = true →
    ∃ w : Value, Value.pyAdd a b = .ok w ∧ w.isRealNum = true ∧
      w.toRat = a.toRat + b.toRat
  | .int m, .int n, _, _ =>
    ⟨.int (m + n), rfl, rfl, by simp [Value.toRat]⟩
  | .int m, .float q, _, _ =>
    ⟨.float ((m : Rat) + q), rfl, rfl, by simp [Value.toRat]⟩
  | .float q, .int n, _, _ =>
    ⟨.float (q + (n : Rat)), rfl, rfl, by simp [Value.toRat]⟩
  | .float a, .float b, _, _ =>
    ⟨.float (a + b), rfl, rfl, by simp [Value.toRat]⟩
  | .nan, _, ha, _ => nomatch ha
  | .str _, _, ha, _ => nomatch ha
  | .null, _, ha, _ => nomatch ha
  | .int _, .nan, _, hb => nomatch hb
  | .int _, .str _, _, hb => nomatch hb
  | .int _, .null, _, hb => nomatch hb
  | .float _, .nan, _, hb => nomatch hb
  | .float _, .str _, _, hb => nomatch hb
  | .float _, .null, _, hb => nomatch hb

/-- Folding the column sum over genuine numbers never fails and adds up. -/
theorem seriesSum_fold (vs : List Value) :
    ∀ acc : Value, acc.isRealNum = true →
      (∀ v ∈ vs, v.isRealNum = true) →
      ∃ t : Value,
        List.foldlM
          (fun acc v => if v.isNa then .ok acc else Value.pyAdd acc v)
          acc vs = .ok t ∧
        t.isRealNum = true ∧ t.toRat = acc.toRat + mathSum vs := by
  induction vs with
  | nil =>
    intro acc hacc _
    exact ⟨acc, rfl, hacc, by simp [mathSum]⟩
  | cons v vs ih =>
    intro acc hacc hnum
    have hv : v.isRealNum = true := hnum v (List.mem_cons_self v vs)
    have hna : v.isNa = false := isNa_of_isRealNum hv
    obtain ⟨w, hw, hwr, hwt⟩ := pyAdd_realNum hacc hv
    obtain ⟨t, ht, htr, htt⟩ :=
      ih w hwr (fun x hx => hnum x (List.mem_cons_of_mem v hx))
    refine ⟨t, ?_, htr, ?_⟩
    · simp only [List.foldlM_cons, hna, Bool.false_eq_true, if_false, hw]
      exact ht
    · rw [htt, hwt]
      simp only [mathSum, List.map_cons, List.sum_cons]
      ring
  
theorem seriesSum_numeric (vs : List Value)
    (hnum : ∀ v ∈ vs, v.isRealNum = true) :
    ∃ t : Value, seriesSum vs = .ok t ∧ t.isRealNum = true ∧
      t.toRat = mathSum vs := by
  obtain ⟨t, h1, h2, h3⟩ := seriesSum_fold vs (Value.int 0) rfl hnum
  refine ⟨t, h1, h2, ?_⟩
  rw [h3]
  simp [Value.toRat]

theorem formatF2_realNum : ∀ {t : Value}, t.isRealNum = true →
    formatF2 t = .ok (fmt2 t.toRat)
  | .int _, _ => rfl
  | .float _, _ => rfl
  | .nan, h => nomatch h
  | .str _, h => nomatch h
  | .null, h => nomatch h

/-- C8: on a frame of valid rows whose `Total_Cost` entries are genuine
numbers, the report generator cannot fail: it returns exactly the report
text whose total is the column's sum formatted to two decimals behind the
dollar sign and whose elapsed time is formatted to two-decimal seconds;
the sum over zero rows renders as 0.00. -/
theorem c8_report_formats_sum_and_elapsed (df : DataFrame) (elapsed : Rat)
    (hc : "Total_Cost" ∈ df.cols)
    (hnum : ∀ r ∈ df.rows, (getItem r "Total_Cost").isRealNum = true) :
    generate_sales_report df elapsed =
      .ok (reportText
        (fmt2 (mathSum (List.map (fun r => getItem r "Total_Cost") df.rows)))
        (fmt2 elapsed)) ∧
    fmt2 (mathSum []) = "0.00" := by
  constructor
  · obtain ⟨t, hts, htr, htt⟩ := seriesSum_numeric
      (List.map (fun r => getItem r "Total_Cost") df.rows)
      (by
        intro v hv
        obtain ⟨r, hr, hrv⟩ := List.mem_map.mp hv
        rw [← hrv]
        exact hnum r hr)
    unfold generate_sales_report
    rw [if_pos hc]
    simp only [hts, formatF2_realNum htr, htt]
  · have h0 : mathSum [] = 0 := rfl
    rw [h0]
    unfold fmt2 roundHalfEven
    norm_num
    rfl

/-- One-row frame of valid sales, total cost 20. -/
def reportDF : DataFrame :=
  ⟨["Total_Cost"], [[("Total_Cost", .int 20)]]⟩

/-- Witness for C8 at the one-row frame with elapsed time 0. -/
theorem c8_witness :
    ("Total_Cost" ∈ reportDF.cols ∧
     ∀ r ∈ reportDF.rows, (getItem r "Total_Cost").isRealNum = true) ∧
    (generate_sales_report reportDF 0 =
      .ok (reportText
        (fmt2 (mathSum
          (List.map (fun r => getItem r "Total_Cost") reportDF.rows)))
        (fmt2 0)) ∧
     fmt2 (mathSum []) = "0.00") :=
  ⟨⟨by decide, by decide⟩,
   c8_report_formats_sum_and_elapsed reportDF 0 (by decide) (by decide)⟩
